import Mathlib

/-!
Verification of the lambda-utils helper library: a shallow embedding of its
configuration manager, API Gateway response formatter, client singletons
(DynamoDB, SNS, SQS, Lambda) and structured logger wrapper, together with
theorems about their contracts.

JavaScript values that flow through the library are modelled by the `Json`
inductive; object identity (JS reference equality) is modelled by tagging each
freshly validated snapshot or constructed client handle with an allocation
counter drawn from the enclosing module state.
-/

/-- A JSON / JavaScript runtime value: null, booleans, numbers (the library only
ever serializes integral numbers), strings, arrays and objects. -/
inductive Json where
  | null : Json
  | bool (b : Bool) : Json
  | num (n : Int) : Json
  | str (s : String) : Json
  | arr (elems : List Json) : Json
  | obj (fields : List (String × Json)) : Json

/-- JavaScript truthiness of a value: `null`, `false`, `0` and `""` are falsy;
objects and arrays are always truthy.  This is the semantics of the `!cache`
test inside the configuration manager. -/
def Json.falsy : Json → Bool
  | Json.null => true
  | Json.bool b => !b
  | Json.num n => n == 0
  | Json.str s => s.isEmpty
  | Json.arr _ => false
  | Json.obj _ => false

/-- One hexadecimal digit, lowercase, as emitted by JSON.stringify escapes. -/
def hexDigitChar (n : Nat) : Char :=
  if n < 10 then Char.ofNat (48 + n) else Char.ofNat (87 + n)

/-- Escape one character the way JSON.stringify escapes string contents. -/
def jsonEscapeChar (c : Char) : String :=
  if c = '"' then "\\\""
  else if c = '\\' then "\\\\"
  else if c = Char.ofNat 8 then "\\b"
  else if c = Char.ofNat 9 then "\\t"
  else if c = Char.ofNat 10 then "\\n"
  else if c = Char.ofNat 12 then "\\f"
  else if c = Char.ofNat 13 then "\\r"
  else if c.toNat < 32 then
    "\\u00" ++ String.mk [hexDigitChar (c.toNat / 16), hexDigitChar (c.toNat % 16)]
  else String.mk [c]

/-- Escape a whole string as JSON.stringify does between the quotes. -/
def jsonEscape (s : String) : String :=
  String.join (s.data.map jsonEscapeChar)

mutual
/-- `JSON.stringify` on the modelled values: no whitespace, fields in order. -/
def Json.stringify : Json → String
  | Json.null => "null"
  | Json.bool b => cond b "true" "false"
  | Json.num n => toString n
  | Json.str s => "\"" ++ jsonEscape s ++ "\""
  | Json.arr elems => "[" ++ Json.stringifyList elems ++ "]"
  | Json.obj fields => "\x7b" ++ Json.stringifyFields fields ++ "\x7d"

/-- Comma-joined serialization of array elements. -/
def Json.stringifyList : List Json → String
  | [] => ""
  | [j] => Json.stringify j
  | j :: j2 :: rest => Json.stringify j ++ "," ++ Json.stringifyList (j2 :: rest)

/-- Comma-joined serialization of object fields, each as `"key":value`. -/
def Json.stringifyFields : List (String × Json) → String
  | [] => ""
  | [(k, v)] => "\"" ++ jsonEscape k ++ "\":" ++ Json.stringify v
  | (k, v) :: f2 :: rest =>
      "\"" ++ jsonEscape k ++ "\":" ++ Json.stringify v ++ "," ++ Json.stringifyFields (f2 :: rest)
end

/-! ## Configuration manager (src/validation/config.ts, `createConfigManager`) -/

/-- The process environment: a finite map from variable names to string values,
as `process.env` presents it to `schema.parse`. -/
abbrev Env := List (String × String)

/-- One entry of `ZodError.issues`: a field path and a human-readable reason. -/
structure ZodIssue where
  path : List String
  message : String
deriving DecidableEq

/-- A value a JavaScript `throw` can carry: an `Error` with a message, or any
other thrown value (re-thrown unchanged by the manager). -/
inductive ThrownValue where
  | error (message : String) : ThrownValue
  | raw (v : Json) : ThrownValue

/-- Outcome of `schema.parse(process.env)`: a validated value, a thrown
`ZodError` carrying its issues, or some other thrown value. -/
inductive ParseResult where
  | ok (v : Json) : ParseResult
  | zodError (issues : List ZodIssue) : ParseResult
  | otherThrow (e : ThrownValue) : ParseResult

/-- A Zod schema, as the manager consumes it: a deterministic parse function
over the current process environment. -/
structure Schema where
  parse : Env → ParseResult

/-- `issue.path.join('.') + ': ' + issue.message`, joined over issues by `', '`:
the aggregation performed inside `_validateConfig`. -/
def formatIssues (issues : List ZodIssue) : String :=
  String.intercalate ", "
    (issues.map fun issue => String.intercalate "." issue.path ++ ": " ++ issue.message)

/-- `_validateConfig` from `createConfigManager`: parse the environment; wrap a
`ZodError` into an `Error` whose message is the fixed marker followed by the
aggregated issues; re-throw any other error unchanged. -/
def validateConfig (schema : Schema) (env : Env) : Except ThrownValue Json :=
  match schema.parse env with
  | ParseResult.ok v => Except.ok v
  | ParseResult.zodError issues =>
      Except.error (ThrownValue.error ("Configuration validation failed: " ++ formatIssues issues))
  | ParseResult.otherThrow e => Except.error e

/-- A validated configuration snapshot: its value together with an allocation
tag modelling JS object identity (each validation yields a fresh object). -/
structure Snapshot where
  val : Json
  ref : Nat

/-- The closed-over state of one manager instance: the `cache` variable
(`null` initially) and the allocation counter for fresh snapshot identities. -/
structure ManagerState where
  cache : Option Snapshot
  nextRef : Nat

/-- Manager state right after `createConfigManager(schema)`: `cache = null`. -/
def initialManagerState : ManagerState := ⟨none, 0⟩

/-- Truthiness of the `cache` variable as the JS `!cache` test sees it:
`null` is falsy, and a stored snapshot is as truthy as its value. -/
def cacheTruthy : Option Snapshot → Bool
  | none => false
  | some sn => !sn.val.falsy

/-- `cache = _validateConfig(); return cache;` — validate the current
environment, store the result as the cache and return it; on a throw the
assignment never happens, so the state is returned unchanged. -/
def validateAndStore (schema : Schema) (env : Env) (s : ManagerState) :
    Except ThrownValue Snapshot × ManagerState :=
  match validateConfig schema env with
  | Except.ok v =>
      let sn : Snapshot := ⟨v, s.nextRef⟩
      (Except.ok sn, ⟨some sn, s.nextRef + 1⟩)
  | Except.error e => (Except.error e, s)

/-- `get()` of the manager: `if (!cache) cache = _validateConfig(); return cache;`.
The truthiness test means a falsy cached value is treated as absent. -/
def ConfigManager.get (schema : Schema) (env : Env) (s : ManagerState) :
    Except ThrownValue Snapshot × ManagerState :=
  match s.cache with
  | some sn =>
      if sn.val.falsy then validateAndStore schema env s
      else (Except.ok sn, s)
  | none => validateAndStore schema env s

/-- `refresh()` of the manager: `cache = _validateConfig(); return cache;` —
unconditional re-validation regardless of the cache. -/
def ConfigManager.refresh (schema : Schema) (env : Env) (s : ManagerState) :
    Except ThrownValue Snapshot × ManagerState :=
  validateAndStore schema env s

/-- A schema whose parse succeeds with the falsy value `false` when `MODE=a`
and with a (truthy) empty object otherwise; used against claim C1. -/
def falsySwitchSchema : Schema :=
  ⟨fun env =>
    if env.lookup "MODE" = some "a" then ParseResult.ok (Json.bool false)
    else ParseResult.ok (Json.obj [])⟩

/-- A schema that parses to `false` when `MODE=a` and raises a Zod validation
failure otherwise; used against claim C2's failed-refresh clause. -/
def falsyThenFailSchema : Schema :=
  ⟨fun env =>
    if env.lookup "MODE" = some "a" then ParseResult.ok (Json.bool false)
    else ParseResult.zodError [⟨["MODE"], "Required"⟩]⟩

/-- A schema requiring `TABLE_NAME` with no default: present means success,
absent raises the Zod issue `TABLE_NAME: Required`. -/
def tableNameSchema : Schema :=
  ⟨fun env =>
    match env.lookup "TABLE_NAME" with
    | some v => ParseResult.ok (Json.obj [("TABLE_NAME", Json.str v)])
    | none => ParseResult.zodError [⟨["TABLE_NAME"], "Required"⟩]⟩

/-- A schema that reflects the `K` environment variable into an object; always
succeeds with a truthy snapshot. -/
def echoKSchema : Schema :=
  ⟨fun env => ParseResult.ok (Json.obj [("K", Json.str ((env.lookup "K").getD ""))])⟩

/-- A schema whose parse always succeeds with the falsy value `false`. -/
def constFalseSchema : Schema := ⟨fun _ => ParseResult.ok (Json.bool false)⟩

/-- Environment `MODE=a`. -/
def envModeA : Env := [("MODE", "a")]

/-- The empty environment. -/
def envEmpty : Env := []

/-- Environment `K=1`. -/
def envK1 : Env := [("K", "1")]

/-- Environment `K=2`. -/
def envK2 : Env := [("K", "2")]

/-! ## Response formatter (src/utils/apigateway-response.ts) -/

/-- A header value: `Headers = Record<string, string | number | boolean>`. -/
inductive HeaderValue where
  | str (s : String) : HeaderValue
  | num (n : Int) : HeaderValue
  | bool (b : Bool) : HeaderValue
deriving DecidableEq

/-- The headers record of a response. -/
abbrev Headers := List (String × HeaderValue)

/-- The API Gateway response envelope `APIGatewayProxyResult`. -/
structure APIGatewayProxyResult where
  statusCode : Int
  headers : Headers
  body : String
deriving DecidableEq

/-- `createResponse(statusCode, body, headers = {})`: the envelope with the
given status, the headers (spread into a fresh record, `{}` when omitted) and
the JSON-serialized body.  An omitted optional argument is `none`. -/
def createResponse (statusCode : Int) (body : Json) (headers : Option Headers) :
    APIGatewayProxyResult :=
  ⟨statusCode, headers.getD [], Json.stringify body⟩

/-- `ok(body, headers?)`: a 200 response. -/
def ok (body : Json) (headers : Option Headers) : APIGatewayProxyResult :=
  createResponse 200 body headers

/-- `created(body, headers?)`: a 201 response. -/
def created (body : Json) (headers : Option Headers) : APIGatewayProxyResult :=
  createResponse 201 body headers

/-- `noContent(headers?)`: a 204 response with an empty-object body. -/
def noContent (headers : Option Headers) : APIGatewayProxyResult :=
  createResponse 204 (Json.obj []) headers

/-- `badRequest(message = 'Bad Request', headers?)`: a 400 response whose body
is the message wrapped as `{ message }`. -/
def badRequest (message : Option String) (headers : Option Headers) : APIGatewayProxyResult :=
  createResponse 400 (Json.obj [("message", Json.str (message.getD "Bad Request"))]) headers

/-- `notFound(message = 'Not Found', headers?)`: a 404 response whose body is
the message wrapped as `{ message }`. -/
def notFound (message : Option String) (headers : Option Headers) : APIGatewayProxyResult :=
  createResponse 404 (Json.obj [("message", Json.str (message.getD "Not Found"))]) headers

/-- `internalServerError(message = 'Internal Server Error', headers?)`: a 500
response whose body is the message wrapped as `{ message }`. -/
def internalServerError (message : Option String) (headers : Option Headers) :
    APIGatewayProxyResult :=
  createResponse 500 (Json.obj [("message", Json.str (message.getD "Internal Server Error"))]) headers

/-! ## DynamoDB client singletons (src/clients/dynamodb-client.ts) -/

/-- A constructed `DynamoDBClient` handle: the configuration it was built from
and an allocation tag modelling its JS object identity. -/
structure DynamoDBClient where
  config : Json
  id : Nat

/-- The `TranslateConfig` passed to `DynamoDBDocumentClient.from`. -/
structure TranslateConfig where
  marshallOptions : Json
  unmarshallOptions : Json

/-- A constructed `DynamoDBDocumentClient` handle: derived from a base client
plus translate options, with its own identity tag. -/
structure DynamoDBDocumentClient where
  base : DynamoDBClient
  translateConfig : TranslateConfig
  id : Nat

/-- The module-level singleton slots `dynamoClient` / `dynamoDocClient`
(both `null` initially) plus the allocation counter for fresh handles. -/
structure DynamoDBModuleState where
  dynamoClient : Option DynamoDBClient
  dynamoDocClient : Option DynamoDBDocumentClient
  nextId : Nat

/-- Module state at load: both singleton slots hold `null`. -/
def dynamoInitialState : DynamoDBModuleState := ⟨none, none, 0⟩

/-- `initializeDynamoDBClients(config?, marshallOptions?, unmarshallOptions?)`:
construct a fresh base client from `config || {}`, a fresh document client from
it and the translate options (each `|| {}`), store both in the singleton slots
(replacing any existing handles) and return the pair. -/
def initializeDynamoDBClients (config marshallOptions unmarshallOptions : Option Json)
    (s : DynamoDBModuleState) :
    (DynamoDBClient × DynamoDBDocumentClient) × DynamoDBModuleState :=
  let client : DynamoDBClient := ⟨config.getD (Json.obj []), s.nextId⟩
  let translateConfig : TranslateConfig :=
    ⟨marshallOptions.getD (Json.obj []), unmarshallOptions.getD (Json.obj [])⟩
  let documentClient : DynamoDBDocumentClient := ⟨client, translateConfig, s.nextId + 1⟩
  ((client, documentClient), ⟨some client, some documentClient, s.nextId + 2⟩)

/-- `getDynamoDBClient()`: return the singleton base client, or throw the
not-initialized error naming `initializeDynamoDBClients()` when the slot is
`null`. -/
def getDynamoDBClient (s : DynamoDBModuleState) : Except String DynamoDBClient :=
  match s.dynamoClient with
  | none => Except.error "DynamoDB client not initialized. Call initializeDynamoDBClients() first."
  | some c => Except.ok c

/-- `getDynamoDBDocumentClient()`: return the singleton document client, or
throw the not-initialized error naming `initializeDynamoDBClients()`. -/
def getDynamoDBDocumentClient (s : DynamoDBModuleState) : Except String DynamoDBDocumentClient :=
  match s.dynamoDocClient with
  | none =>
      Except.error "DynamoDB Document client not initialized. Call initializeDynamoDBClients() first."
  | some c => Except.ok c

/-- `resetDynamoDBClients()`: force both singleton slots back to `null`. -/
def resetDynamoDBClients (s : DynamoDBModuleState) : DynamoDBModuleState :=
  ⟨none, none, s.nextId⟩

/-! ## Lambda client (src/clients/lambda-client.ts) -/

/-- The `InvocationType` of an `InvokeCommand`. -/
inductive InvocationType where
  | requestResponse : InvocationType
  | event : InvocationType
deriving DecidableEq

/-- An `InvokeCommand`: function name, invocation type and the serialized
request payload string. -/
structure InvokeCommand where
  functionName : String
  invocationType : InvocationType
  payload : String
deriving DecidableEq

/-- The platform response to an invoke: the optional `FunctionError` marker and
the optional response payload.  The source decodes the payload bytes and
applies `JSON.parse`; the model carries the parsed JSON value directly, with
`none` for a response without a payload. -/
structure InvokeResponse where
  functionError : Option String
  payload : Option Json

/-- JS truthiness of an optional string (`undefined` and `''` are falsy), the
semantics of `if (response.FunctionError)`. -/
def optStrTruthy : Option String → Bool
  | none => false
  | some s => !s.isEmpty

/-- The `InvokeCommand` that `invokeLambdaSync` builds: `RequestResponse`
invocation with the JSON-serialized payload. -/
def invokeSyncCommand (functionName : String) (payload : Json) : InvokeCommand :=
  ⟨functionName, InvocationType.requestResponse, Json.stringify payload⟩

/-- `invokeLambdaSync(functionName, payload)`: send one `InvokeCommand` through
the client (the transport parameter models `client.send`), throw
`Lambda function error: <marker>` when the response reports a truthy
`FunctionError`, otherwise return the parsed response payload (or `null` when
the response carried none).  The second component is the list of transport
calls issued, in order. -/
def invokeLambdaSync (functionName : String) (payload : Json)
    (transport : InvokeCommand → InvokeResponse) :
    Except String (Option Json) × List InvokeCommand :=
  let command := invokeSyncCommand functionName payload
  let response := transport command
  if optStrTruthy response.functionError then
    (Except.error ("Lambda function error: " ++ response.functionError.getD ""), [command])
  else
    (Except.ok response.payload, [command])

/-! ## SNS client (src/clients/sns-client.ts) -/

/-- An SNS message attribute value; SNS supports String, String.Array, Number
and Binary data types. -/
structure SNSAttributeValue where
  dataType : String
  stringValue : Option String
  binaryValue : Option (List Nat)
deriving DecidableEq

/-- The SNS message attribute map. -/
abbrev SNSMessageAttributes := List (String × SNSAttributeValue)

/-- A constructed `SNSClient` handle: its configuration and identity tag. -/
structure SNSClient where
  config : Json
  id : Nat

/-- The module-level `snsClient` singleton slot plus allocation counter. -/
structure SNSModuleState where
  snsClient : Option SNSClient
  nextId : Nat

/-- SNS module state at load: the slot holds `null`. -/
def snsInitialState : SNSModuleState := ⟨none, 0⟩

/-- `getSNSClient()`: create-on-demand — construct a default-configuration
client when the slot is `null`, store it, and return the singleton. -/
def getSNSClient (s : SNSModuleState) : SNSClient × SNSModuleState :=
  match s.snsClient with
  | some c => (c, s)
  | none =>
      let c : SNSClient := ⟨Json.obj [], s.nextId⟩
      (c, ⟨some c, s.nextId + 1⟩)

/-- A `PublishCommand`: topic ARN, the serialized message string, and the
optional attribute map. -/
structure PublishCommand where
  topicArn : String
  message : String
  messageAttributes : Option SNSMessageAttributes
deriving DecidableEq

/-- The platform response to a publish: the optional assigned `MessageId`. -/
structure PublishResponse where
  messageId : Option String
deriving DecidableEq

/-- The `PublishCommand` that `publishToTopic` builds. -/
def snsPublishCommand (topicArn : String) (message : Json)
    (attributes : Option SNSMessageAttributes) : PublishCommand :=
  ⟨topicArn, Json.stringify message, attributes⟩

/-- `publishToTopic(topicArn, message, attributes?)`: obtain the singleton
client via `getSNSClient`, send one `PublishCommand` with the JSON-serialized
message, and return `response.MessageId ?? ''`.  The last component is the
list of transport calls issued. -/
def publishToTopic (topicArn : String) (message : Json)
    (attributes : Option SNSMessageAttributes) (s : SNSModuleState)
    (transport : SNSClient → PublishCommand → PublishResponse) :
    (String × SNSModuleState) × List PublishCommand :=
  let cs := getSNSClient s
  let command := snsPublishCommand topicArn message attributes
  let response := transport cs.1 command
  ((response.messageId.getD "", cs.2), [command])

/-! ## SQS client (src/clients/sqs-client.ts) -/

/-- An SQS message attribute value; SQS supports String, Number and Binary. -/
structure SQSAttributeValue where
  dataType : String
  stringValue : Option String
  binaryValue : Option (List Nat)
deriving DecidableEq

/-- The SQS message attribute map. -/
abbrev SQSMessageAttributes := List (String × SQSAttributeValue)

/-- A constructed `SQSClient` handle: its configuration and identity tag. -/
structure SQSClient where
  config : Json
  id : Nat

/-- The module-level `sqsClient` singleton slot plus allocation counter. -/
structure SQSModuleState where
  sqsClient : Option SQSClient
  nextId : Nat

/-- SQS module state at load: the slot holds `null`. -/
def sqsInitialState : SQSModuleState := ⟨none, 0⟩

/-- `getSQSClient()`: create-on-demand singleton access. -/
def getSQSClient (s : SQSModuleState) : SQSClient × SQSModuleState :=
  match s.sqsClient with
  | some c => (c, s)
  | none =>
      let c : SQSClient := ⟨Json.obj [], s.nextId⟩
      (c, ⟨some c, s.nextId + 1⟩)

/-- A `SendMessageCommand`: queue URL, the serialized message body, and the
optional attribute map. -/
structure SendMessageCommand where
  queueUrl : String
  messageBody : String
  messageAttributes : Option SQSMessageAttributes
deriving DecidableEq

/-- The platform response to a send: the optional assigned `MessageId`. -/
structure SendMessageResponse where
  messageId : Option String
deriving DecidableEq

/-- The `SendMessageCommand` that `sendToQueue` builds. -/
def sqsSendCommand (queueUrl : String) (message : Json)
    (attributes : Option SQSMessageAttributes) : SendMessageCommand :=
  ⟨queueUrl, Json.stringify message, attributes⟩

/-- `sendToQueue(queueUrl, message, attributes?)`: obtain the singleton client
via `getSQSClient`, send one `SendMessageCommand` with the JSON-serialized
message body, and return `response.MessageId ?? ''`.  The last component is
the list of transport calls issued. -/
def sendToQueue (queueUrl : String) (message : Json)
    (attributes : Option SQSMessageAttributes) (s : SQSModuleState)
    (transport : SQSClient → SendMessageCommand → SendMessageResponse) :
    (String × SQSModuleState) × List SendMessageCommand :=
  let cs := getSQSClient s
  let command := sqsSendCommand queueUrl message attributes
  let response := transport cs.1 command
  ((response.messageId.getD "", cs.2), [command])

/-! ## Structured logger wrapper -/

/-- The four ordered log severities recognized by the logger configuration. -/
inductive LogLevel where
  | debug : LogLevel
  | info : LogLevel
  | warn : LogLevel
  | error : LogLevel
deriving DecidableEq

/-- The two output styles: `json` (structured) and `text` (Cloudwatch). -/
inductive LogFormat where
  | json : LogFormat
  | text : LogFormat
deriving DecidableEq

/-- The logger configuration options, each optional. -/
structure LoggerConfig where
  enabled : Option Bool
  level : Option LogLevel
  format : Option LogFormat
deriving DecidableEq

/-- A logger configuration with every option resolved to a value. -/
structure ResolvedLoggerConfig where
  enabled : Bool
  level : LogLevel
  format : LogFormat
deriving DecidableEq

/-- Modelled from the spec: defaulting of the three recognized options —
`enabled` defaults to true, `level` to the second-lowest severity (`info`),
`format` to the structured style (`json`). -/
def resolveLoggerConfig (config : LoggerConfig) : ResolvedLoggerConfig :=
  ⟨config.enabled.getD true, config.level.getD LogLevel.info, config.format.getD LogFormat.json⟩

/-- The two pino-lambda formatters the wrapper can select. -/
inductive LogFormatter where
  | structured : LogFormatter
  | cloudwatch : LogFormatter
deriving DecidableEq

/-- A constructed underlying pino logging instance: the options it was built
with and an allocation tag modelling its JS object identity. -/
structure PinoInstance where
  enabled : Bool
  level : LogLevel
  formatter : LogFormatter
  id : Nat
deriving DecidableEq

/-- Modelled from the spec: construction of the underlying logging instance
from a resolved configuration — the `json` format selects the structured
formatter, `text` the Cloudwatch one. -/
def buildPinoInstance (c : ResolvedLoggerConfig) (id : Nat) : PinoInstance :=
  ⟨c.enabled, c.level,
    (match c.format with
      | LogFormat.json => LogFormatter.structured
      | LogFormat.text => LogFormatter.cloudwatch),
    id⟩

/-- Modelled from the spec: the `Logger` wrapper class exported by the package
(absent from the provided sources; only its tests, its `index.ts` export and
its documentation are present).  A wrapper holds the configuration captured
once at construction time and a per-wrapper cache slot for the underlying
instance. -/
structure Logger where
  config : ResolvedLoggerConfig
  instanceCache : Option PinoInstance
deriving DecidableEq

/-- Modelled from the spec: the `Logger` constructor — captures (resolves and
stores) the configuration, constructs nothing yet. -/
def Logger.new (config : LoggerConfig) : Logger :=
  ⟨resolveLoggerConfig config, none⟩

/-- Modelled from the spec: the `instance` accessor of the wrapper —
constructs the underlying logging instance on first access from the captured
configuration, memoizes it in the wrapper's own cache slot, and returns the
memoized instance on every later access.  Returns the instance together with
the (possibly updated) wrapper. -/
def Logger.instanceGet (l : Logger) (freshId : Nat) : PinoInstance × Logger :=
  match l.instanceCache with
  | some i => (i, l)
  | none =>
      let i := buildPinoInstance l.config freshId
      (i, ⟨l.config, some i⟩)

/-! ## Concrete transports and inputs used by the witnesses -/

/-- A transport whose response reports the function error marker `Unhandled`. -/
def errTransport : InvokeCommand → InvokeResponse :=
  fun _ => ⟨some "Unhandled", none⟩

/-- A transport whose response reports no function error and carries a payload. -/
def okTransport : InvokeCommand → InvokeResponse :=
  fun _ => ⟨none, some (Json.obj [("result", Json.str "done")])⟩

/-- An SNS transport whose response carries the message id `sns-123`. -/
def snsIdTransport : SNSClient → PublishCommand → PublishResponse :=
  fun _ _ => ⟨some "sns-123"⟩

/-- An SNS transport whose response omits the message id. -/
def snsNoIdTransport : SNSClient → PublishCommand → PublishResponse :=
  fun _ _ => ⟨none⟩

/-- An SQS transport whose response carries the message id `sqs-456`. -/
def sqsIdTransport : SQSClient → SendMessageCommand → SendMessageResponse :=
  fun _ _ => ⟨some "sqs-456"⟩

/-- An SQS transport whose response omits the message id. -/
def sqsNoIdTransport : SQSClient → SendMessageCommand → SendMessageResponse :=
  fun _ _ => ⟨none⟩

/-! ## Theorems -/

/-- C1 (amended), theorem: for every schema and environment under which
validation succeeds with a truthy snapshot value, get() validates on the
first call, caches the snapshot, and a subsequent get() without an
intervening refresh() returns the exact same snapshot object (reference
equality) and leaves the state unchanged, even if the process environment
changed between the calls. -/
theorem configManager_get_identity_stable_of_truthy (schema : Schema) (env₁ env₂ : Env)
    (v : Json) (h : schema.parse env₁ = ParseResult.ok v) (hv : v.falsy = false) :
    ConfigManager.get schema env₁ initialManagerState
      = (Except.ok ⟨v, 0⟩, ⟨some ⟨v, 0⟩, 1⟩) ∧
    ConfigManager.get schema env₂ ⟨some ⟨v, 0⟩, 1⟩
      = (Except.ok ⟨v, 0⟩, ⟨some ⟨v, 0⟩, 1⟩) := by
  constructor
  · simp [ConfigManager.get, initialManagerState, validateAndStore, validateConfig, h]
  · simp [ConfigManager.get, hv]

/-- C1 witness: the amended theorem at a concrete schema reflecting `K`, with
the environment switched from `K=1` to `K=2` between the two calls. -/
theorem configManager_get_identity_stable_of_truthy_witness :
    ConfigManager.get echoKSchema envK1 initialManagerState
      = (Except.ok ⟨Json.obj [("K", Json.str "1")], 0⟩,
          ⟨some ⟨Json.obj [("K", Json.str "1")], 0⟩, 1⟩) ∧
    ConfigManager.get echoKSchema envK2 ⟨some ⟨Json.obj [("K", Json.str "1")], 0⟩, 1⟩
      = (Except.ok ⟨Json.obj [("K", Json.str "1")], 0⟩,
          ⟨some ⟨Json.obj [("K", Json.str "1")], 0⟩, 1⟩) :=
  configManager_get_identity_stable_of_truthy echoKSchema envK1 envK2 _ rfl rfl

/-- C1 counterexample: under `falsySwitchSchema`, validation succeeds under
`MODE=a` (yielding the falsy value `false`); the first get() stores it, yet a
second get() without any refresh(), after the environment changed, re-validates
and returns a different snapshot — refuting the claim that for every schema a
successful get() makes later get() calls return the identical snapshot object
regardless of environment changes. -/
theorem configManager_get_identity_counterexample :
    ConfigManager.get falsySwitchSchema envModeA initialManagerState
      = (Except.ok ⟨Json.bool false, 0⟩, ⟨some ⟨Json.bool false, 0⟩, 1⟩) ∧
    ConfigManager.get falsySwitchSchema envEmpty ⟨some ⟨Json.bool false, 0⟩, 1⟩
      = (Except.ok ⟨Json.obj [], 1⟩, ⟨some ⟨Json.obj [], 1⟩, 2⟩) ∧
    (⟨Json.obj [], 1⟩ : Snapshot) ≠ ⟨Json.bool false, 0⟩ :=
  ⟨rfl, rfl, fun hcontra => Nat.one_ne_zero (congrArg Snapshot.ref hcontra)⟩

/-- C2 (amended), theorem: a validation failure leaves the manager state
exactly as it was — a failing get() on an empty cache leaves the cache empty,
so the next get() or refresh() re-validates from scratch; a failing refresh()
leaves the previously cached snapshot in place, so a subsequent get() still
returns the prior snapshot provided that snapshot is truthy (a falsy cached
value is never treated as populated by get()'s truthiness test). -/
theorem configManager_failure_preserves_cache (schema : Schema) (env env₂ : Env)
    (s : ManagerState) (e : ThrownValue)
    (hfail : validateConfig schema env = Except.error e) :
    (s.cache = none →
      ConfigManager.get schema env s = (Except.error e, s) ∧
      ConfigManager.get schema env₂ s = validateAndStore schema env₂ s ∧
      ConfigManager.refresh schema env₂ s = validateAndStore schema env₂ s) ∧
    ConfigManager.refresh schema env s = (Except.error e, s) ∧
    (∀ sn, s.cache = some sn → sn.val.falsy = false →
      ConfigManager.get schema env₂ (ConfigManager.refresh schema env s).2
        = (Except.ok sn, s)) := by
  have hrefresh : ConfigManager.refresh schema env s = (Except.error e, s) := by
    simp [ConfigManager.refresh, validateAndStore, hfail]
  refine ⟨fun hc => ⟨?_, ?_, rfl⟩, hrefresh, fun sn hc hsn => ?_⟩
  · simp [ConfigManager.get, hc, validateAndStore, hfail]
  · simp [ConfigManager.get, hc]
  · rw [hrefresh]
    simp [ConfigManager.get, hc, hsn]

/-- C2 witness: after a refresh() that fails on the empty environment, a get()
still returns the previously cached truthy snapshot. -/
theorem configManager_failure_preserves_cache_witness :
    ConfigManager.get tableNameSchema envK1
        (ConfigManager.refresh tableNameSchema envEmpty
          ⟨some ⟨Json.obj [("TABLE_NAME", Json.str "t")], 0⟩, 1⟩).2
      = (Except.ok ⟨Json.obj [("TABLE_NAME", Json.str "t")], 0⟩,
          ⟨some ⟨Json.obj [("TABLE_NAME", Json.str "t")], 0⟩, 1⟩) :=
  (configManager_failure_preserves_cache tableNameSchema envEmpty envK1
      ⟨some ⟨Json.obj [("TABLE_NAME", Json.str "t")], 0⟩, 1⟩
      (ThrownValue.error "Configuration validation failed: TABLE_NAME: Required")
      rfl).2.2 _ rfl rfl

/-- C2 counterexample: with `falsyThenFailSchema`, get() under `MODE=a` caches
the falsy snapshot `false`; a refresh() on the now-empty environment throws
and does leave that cached snapshot in place, yet the subsequent get() does
not return the prior snapshot — it re-validates (because the cached value is
falsy) and throws. -/
theorem configManager_refresh_failure_counterexample :
    ConfigManager.get falsyThenFailSchema envModeA initialManagerState
      = (Except.ok ⟨Json.bool false, 0⟩, ⟨some ⟨Json.bool false, 0⟩, 1⟩) ∧
    ConfigManager.refresh falsyThenFailSchema envEmpty ⟨some ⟨Json.bool false, 0⟩, 1⟩
      = (Except.error (ThrownValue.error "Configuration validation failed: MODE: Required"),
          ⟨some ⟨Json.bool false, 0⟩, 1⟩) ∧
    (ConfigManager.get falsyThenFailSchema envEmpty ⟨some ⟨Json.bool false, 0⟩, 1⟩).1
      ≠ Except.ok ⟨Json.bool false, 0⟩ := by
  refine ⟨rfl, rfl, fun hcontra => ?_⟩
  rw [show (ConfigManager.get falsyThenFailSchema envEmpty ⟨some ⟨Json.bool false, 0⟩, 1⟩).1
        = Except.error (ThrownValue.error "Configuration validation failed: MODE: Required")
      from rfl] at hcontra
  exact Except.noConfusion hcontra

/-- C3, theorem: when schema validation fails with Zod's native validation
failure, get() and refresh() throw an Error whose message is the fixed marker
"Configuration validation failed: " followed by every failing field's
dot-joined path and reason, joined by the separator ", "; in particular, for
a schema requiring `TABLE_NAME` with no default and an environment lacking
it, the thrown message contains "TABLE_NAME" and starts with the marker. -/
theorem configManager_validation_error_message (schema : Schema) (env : Env)
    (s : ManagerState) (issues : List ZodIssue)
    (hp : schema.parse env = ParseResult.zodError issues)
    (hs : cacheTruthy s.cache = false) :
    (ConfigManager.get schema env s).1
      = Except.error
          (ThrownValue.error ("Configuration validation failed: " ++ formatIssues issues)) ∧
    (ConfigManager.refresh schema env s).1
      = Except.error
          (ThrownValue.error ("Configuration validation failed: " ++ formatIssues issues)) ∧
    (ConfigManager.get tableNameSchema envEmpty initialManagerState).1
      = Except.error (ThrownValue.error "Configuration validation failed: TABLE_NAME: Required") ∧
    (∃ rest, "Configuration validation failed: TABLE_NAME: Required"
        = "Configuration validation failed: " ++ rest) ∧
    (∃ pre post, "Configuration validation failed: TABLE_NAME: Required"
        = pre ++ "TABLE_NAME" ++ post) := by
  refine ⟨?_, ?_, rfl, ⟨"TABLE_NAME: Required", rfl⟩,
    ⟨"Configuration validation failed: ", ": Required", rfl⟩⟩
  · cases hc : s.cache with
    | none => simp [ConfigManager.get, hc, validateAndStore, validateConfig, hp]
    | some sn =>
        have hsn : sn.val.falsy = true := by simpa [cacheTruthy, hc] using hs
        simp [ConfigManager.get, hc, hsn, validateAndStore, validateConfig, hp]
  · simp [ConfigManager.refresh, validateAndStore, validateConfig, hp]

/-- C3 witness: the theorem applied to the `TABLE_NAME` schema with the empty
environment and an empty cache. -/
theorem configManager_validation_error_message_witness :
    (ConfigManager.get tableNameSchema envEmpty initialManagerState).1
      = Except.error
          (ThrownValue.error
            ("Configuration validation failed: " ++ formatIssues [⟨["TABLE_NAME"], "Required"⟩])) :=
  (configManager_validation_error_message tableNameSchema envEmpty initialManagerState
      [⟨["TABLE_NAME"], "Required"⟩] rfl rfl).1

/-- C4, theorem: refresh() always re-validates the current environment
regardless of the cache — after a successful get() under E1, a refresh()
under E2 (E1 ≠ E2) returns a freshly allocated snapshot holding the
configuration validated from E2, stores it as the new cache, a following
get() again returns a snapshot holding that E2 configuration, and the
refreshed snapshot is a different object (distinct identity) from the prior
snapshot. -/
theorem configManager_refresh_revalidates (schema : Schema) (env₁ env₂ : Env)
    (v₁ v₂ : Json)
    (h₁ : schema.parse env₁ = ParseResult.ok v₁)
    (h₂ : schema.parse env₂ = ParseResult.ok v₂)
    (_hne : env₁ ≠ env₂) :
    ConfigManager.get schema env₁ initialManagerState
      = (Except.ok ⟨v₁, 0⟩, ⟨some ⟨v₁, 0⟩, 1⟩) ∧
    ConfigManager.refresh schema env₂ ⟨some ⟨v₁, 0⟩, 1⟩
      = (Except.ok ⟨v₂, 1⟩, ⟨some ⟨v₂, 1⟩, 2⟩) ∧
    (∃ sn, (ConfigManager.get schema env₂ ⟨some ⟨v₂, 1⟩, 2⟩).1 = Except.ok sn ∧ sn.val = v₂) ∧
    (⟨v₂, 1⟩ : Snapshot) ≠ ⟨v₁, 0⟩ := by
  refine ⟨?_, ?_, ?_, fun hcontra => Nat.one_ne_zero (congrArg Snapshot.ref hcontra)⟩
  · simp [ConfigManager.get, initialManagerState, validateAndStore, validateConfig, h₁]
  · simp [ConfigManager.refresh, validateAndStore, validateConfig, h₂]
  · cases hv : v₂.falsy with
    | true =>
        exact ⟨⟨v₂, 2⟩, by simp [ConfigManager.get, hv, validateAndStore, validateConfig, h₂], rfl⟩
    | false => exact ⟨⟨v₂, 1⟩, by simp [ConfigManager.get, hv], rfl⟩

/-- C4 witness: the theorem at the `K`-reflecting schema with the environment
switched from `K=1` to `K=2`, projected to the refresh() step. -/
theorem configManager_refresh_revalidates_witness :
    ConfigManager.refresh echoKSchema envK2 ⟨some ⟨Json.obj [("K", Json.str "1")], 0⟩, 1⟩
      = (Except.ok ⟨Json.obj [("K", Json.str "2")], 1⟩,
          ⟨some ⟨Json.obj [("K", Json.str "2")], 1⟩, 2⟩) :=
  (configManager_refresh_revalidates echoKSchema envK1 envK2
      (Json.obj [("K", Json.str "1")]) (Json.obj [("K", Json.str "2")])
      rfl rfl (by decide)).2.1

/-- C10, theorem: for a schema whose successful validations all yield falsy
snapshot values, get() treats the cache as never populated — whenever the
cache is falsy (as it is initially), get() behaves exactly like refresh(),
re-validating the environment, returning a freshly allocated snapshot (never
a previously cached one), and leaving the cache falsy again. -/
theorem configManager_get_falsy_never_cached (schema : Schema)
    (hS : ∀ env v, schema.parse env = ParseResult.ok v → v.falsy = true)
    (s : ManagerState) (env : Env) (hs : cacheTruthy s.cache = false) :
    cacheTruthy initialManagerState.cache = false ∧
    ConfigManager.get schema env s = ConfigManager.refresh schema env s ∧
    (∀ v, schema.parse env = ParseResult.ok v →
      (ConfigManager.get schema env s).1 = Except.ok ⟨v, s.nextRef⟩ ∧
      (ConfigManager.get schema env s).2.nextRef = s.nextRef + 1 ∧
      cacheTruthy (ConfigManager.get schema env s).2.cache = false) := by
  have hget : ConfigManager.get schema env s = ConfigManager.refresh schema env s := by
    cases hc : s.cache with
    | none => simp [ConfigManager.get, ConfigManager.refresh, hc]
    | some sn =>
        have hsn : sn.val.falsy = true := by simpa [cacheTruthy, hc] using hs
        simp [ConfigManager.get, ConfigManager.refresh, hc, hsn]
  refine ⟨rfl, hget, fun v hp => ?_⟩
  rw [hget]
  have hv : v.falsy = true := hS env v hp
  refine ⟨?_, ?_, ?_⟩
  · simp [ConfigManager.refresh, validateAndStore, validateConfig, hp]
  · simp [ConfigManager.refresh, validateAndStore, validateConfig, hp]
  · simp [ConfigManager.refresh, validateAndStore, validateConfig, hp, cacheTruthy, hv]

/-- C10 witness: the theorem at a schema that always validates to the falsy
value `false`, applied in the initial state. -/
theorem configManager_get_falsy_never_cached_witness :
    (ConfigManager.get constFalseSchema envEmpty initialManagerState).1
      = Except.ok ⟨Json.bool false, 0⟩ :=
  ((configManager_get_falsy_never_cached constFalseSchema
      (fun _ v h => by injection h with h1; exact h1 ▸ rfl)
      initialManagerState envEmpty rfl).2.2 (Json.bool false) rfl).1

/-- C5, theorem: the Logger wrapper builds nothing at construction (lazy), its
first instance access constructs the underlying instance from the
configuration captured at construction time, and the instance is memoized in
the wrapper object itself: once cached, every later access — whatever fresh
identity would be available — returns the exact same instance and leaves the
wrapper unchanged, so the instance is never reconstructed. -/
theorem logger_lazy_per_wrapper_memoized (config : LoggerConfig) (freshId : Nat) :
    (Logger.new config).instanceCache = none ∧
    (Logger.new config).config = resolveLoggerConfig config ∧
    (Logger.new config).instanceGet freshId
      = (buildPinoInstance (resolveLoggerConfig config) freshId,
          ⟨resolveLoggerConfig config,
            some (buildPinoInstance (resolveLoggerConfig config) freshId)⟩) ∧
    (∀ (l : Logger) (i : PinoInstance) (fid : Nat),
      l.instanceCache = some i → l.instanceGet fid = (i, l)) := by
  refine ⟨rfl, rfl, rfl, fun l i fid hc => ?_⟩
  simp [Logger.instanceGet, hc]

/-- C5 witness: a wrapper built with a full custom configuration; the second
access (with a different fresh identity available) returns the instance built
by the first access and leaves the wrapper unchanged. -/
theorem logger_lazy_per_wrapper_memoized_witness :
    (((Logger.new ⟨some false, some LogLevel.debug, some LogFormat.text⟩).instanceGet 0).2).instanceGet 5
      = (buildPinoInstance
            (resolveLoggerConfig ⟨some false, some LogLevel.debug, some LogFormat.text⟩) 0,
          ((Logger.new ⟨some false, some LogLevel.debug, some LogFormat.text⟩).instanceGet 0).2) :=
  (logger_lazy_per_wrapper_memoized ⟨some false, some LogLevel.debug, some LogFormat.text⟩ 0).2.2.2
    _ _ 5 rfl

/-- C6, theorem: createResponse(statusCode, body, headers?) returns exactly the
envelope of that status code, the given headers (the empty record when the
argument is omitted) and the JSON-serialized body; in particular
createResponse(200, the object with field a = 1) has body consisting of the
serialized object, notFound() yields the 404 Not Found envelope, and
badRequest with message x and one header yields the 400 envelope carrying that
header. -/
theorem createResponse_shape_and_examples :
    (∀ (statusCode : Int) (body : Json) (headers : Option Headers),
      createResponse statusCode body headers
        = ⟨statusCode, headers.getD [], Json.stringify body⟩) ∧
    createResponse 200 (Json.obj [("a", Json.num 1)]) none
      = ⟨200, [], "\x7b\"a\":1\x7d"⟩ ∧
    notFound none none = ⟨404, [], "\x7b\"message\":\"Not Found\"\x7d"⟩ ∧
    badRequest (some "x") (some [("H", HeaderValue.str "v")])
      = ⟨400, [("H", HeaderValue.str "v")], "\x7b\"message\":\"x\"\x7d"⟩ :=
  ⟨fun _ _ _ => rfl, rfl, rfl, rfl⟩

/-- C7, theorem: for the DynamoDB client kind (require-prior-initialization),
both getters throw before any initialize call, with messages naming the
missing initializeDynamoDBClients() call; after initializeDynamoDBClients()
each getter returns exactly the just-created handle (base and document
client respectively); after resetDynamoDBClients() both getters throw
again. -/
theorem dynamodb_require_initialization_lifecycle
    (config marshallOptions unmarshallOptions : Option Json) (s : DynamoDBModuleState) :
    getDynamoDBClient dynamoInitialState
      = Except.error "DynamoDB client not initialized. Call initializeDynamoDBClients() first." ∧
    getDynamoDBDocumentClient dynamoInitialState
      = Except.error
          "DynamoDB Document client not initialized. Call initializeDynamoDBClients() first." ∧
    getDynamoDBClient (initializeDynamoDBClients config marshallOptions unmarshallOptions s).2
      = Except.ok (initializeDynamoDBClients config marshallOptions unmarshallOptions s).1.1 ∧
    getDynamoDBDocumentClient (initializeDynamoDBClients config marshallOptions unmarshallOptions s).2
      = Except.ok (initializeDynamoDBClients config marshallOptions unmarshallOptions s).1.2 ∧
    getDynamoDBClient
        (resetDynamoDBClients (initializeDynamoDBClients config marshallOptions unmarshallOptions s).2)
      = Except.error "DynamoDB client not initialized. Call initializeDynamoDBClients() first." ∧
    getDynamoDBDocumentClient
        (resetDynamoDBClients (initializeDynamoDBClients config marshallOptions unmarshallOptions s).2)
      = Except.error
          "DynamoDB Document client not initialized. Call initializeDynamoDBClients() first." :=
  ⟨rfl, rfl, rfl, rfl, rfl, rfl⟩

/-- C8, theorem: the synchronous invoke issues exactly one transport call with
the JSON-serialized request payload; when the platform response reports a
(truthy) function-level error, it throws an error whose message is the fixed
prefix followed by — hence containing — the reported error marker text, still
with exactly that one transport call; when the response reports no function
error, it returns the JSON-deserialized response payload, or an absent (null)
result when the response carried no payload. -/
theorem invokeLambdaSync_function_error_and_payload (functionName : String)
    (payload : Json) (transport : InvokeCommand → InvokeResponse) :
    (invokeSyncCommand functionName payload).payload = Json.stringify payload ∧
    (∀ e, (transport (invokeSyncCommand functionName payload)).functionError = some e →
      e ≠ "" →
      invokeLambdaSync functionName payload transport
        = (Except.error ("Lambda function error: " ++ e),
            [invokeSyncCommand functionName payload]) ∧
      (∃ pre, "Lambda function error: " ++ e = pre ++ e)) ∧
    (optStrTruthy (transport (invokeSyncCommand functionName payload)).functionError = false →
      invokeLambdaSync functionName payload transport
        = (Except.ok (transport (invokeSyncCommand functionName payload)).payload,
            [invokeSyncCommand functionName payload])) := by
  refine ⟨rfl, fun e he hne => ⟨?_, "Lambda function error: ", rfl⟩, fun hfalse => ?_⟩
  · have hemp : e.isEmpty = false := by
      cases hb : e.isEmpty with
      | false => rfl
      | true => exact absurd ((String.isEmpty_iff e).mp hb) hne
    simp [invokeLambdaSync, he, optStrTruthy, hemp]
  · simp [invokeLambdaSync, hfalse]

/-- C8 witness: with a transport reporting the function error marker
`Unhandled`, the invoke throws with that marker in the message after one
transport call; with a transport reporting no error and no payload, it
returns the absent result. -/
theorem invokeLambdaSync_function_error_and_payload_witness :
    invokeLambdaSync "my-function" (Json.obj []) errTransport
      = (Except.error "Lambda function error: Unhandled",
          [invokeSyncCommand "my-function" (Json.obj [])]) ∧
    invokeLambdaSync "my-function" (Json.obj []) okTransport
      = (Except.ok (some (Json.obj [("result", Json.str "done")])),
          [invokeSyncCommand "my-function" (Json.obj [])]) :=
  ⟨((invokeLambdaSync_function_error_and_payload "my-function" (Json.obj []) errTransport).2.1
      "Unhandled" rfl (by decide)).1,
    (invokeLambdaSync_function_error_and_payload "my-function" (Json.obj []) okTransport).2.2 rfl⟩

/-- C9, theorem: publishToTopic and sendToQueue each issue exactly one request
whose message field is the JSON serialization of the caller's message, and
return the platform-assigned message identifier verbatim when the response
carries one, and the empty string when the response omits it. -/
theorem publish_send_return_message_id (topicArn queueUrl : String) (message : Json)
    (attrs : Option SNSMessageAttributes) (qattrs : Option SQSMessageAttributes)
    (s : SNSModuleState) (t : SQSModuleState)
    (pubTransport : SNSClient → PublishCommand → PublishResponse)
    (sendTransport : SQSClient → SendMessageCommand → SendMessageResponse) :
    ((publishToTopic topicArn message attrs s pubTransport).2
        = [snsPublishCommand topicArn message attrs] ∧
      (snsPublishCommand topicArn message attrs).message = Json.stringify message) ∧
    (∀ mid,
      (pubTransport (getSNSClient s).1 (snsPublishCommand topicArn message attrs)).messageId
          = some mid →
      (publishToTopic topicArn message attrs s pubTransport).1.1 = mid) ∧
    ((pubTransport (getSNSClient s).1 (snsPublishCommand topicArn message attrs)).messageId
        = none →
      (publishToTopic topicArn message attrs s pubTransport).1.1 = "") ∧
    ((sendToQueue queueUrl message qattrs t sendTransport).2
        = [sqsSendCommand queueUrl message qattrs] ∧
      (sqsSendCommand queueUrl message qattrs).messageBody = Json.stringify message) ∧
    (∀ mid,
      (sendTransport (getSQSClient t).1 (sqsSendCommand queueUrl message qattrs)).messageId
          = some mid →
      (sendToQueue queueUrl message qattrs t sendTransport).1.1 = mid) ∧
    ((sendTransport (getSQSClient t).1 (sqsSendCommand queueUrl message qattrs)).messageId
        = none →
      (sendToQueue queueUrl message qattrs t sendTransport).1.1 = "") := by
  refine ⟨⟨rfl, rfl⟩, fun mid hmid => ?_, fun hnone => ?_, ⟨rfl, rfl⟩,
    fun mid hmid => ?_, fun hnone => ?_⟩
  · simp [publishToTopic, hmid]
  · simp [publishToTopic, hnone]
  · simp [sendToQueue, hmid]
  · simp [sendToQueue, hnone]

/-- C9 witness: concrete transports — the assigned ids `sns-123` and `sqs-456`
are returned verbatim, and responses omitting the id yield the empty
string. -/
theorem publish_send_return_message_id_witness :
    (publishToTopic "topic-arn" (Json.obj []) none snsInitialState snsIdTransport).1.1
      = "sns-123" ∧
    (publishToTopic "topic-arn" (Json.obj []) none snsInitialState snsNoIdTransport).1.1 = "" ∧
    (sendToQueue "queue-url" (Json.obj []) none sqsInitialState sqsIdTransport).1.1
      = "sqs-456" ∧
    (sendToQueue "queue-url" (Json.obj []) none sqsInitialState sqsNoIdTransport).1.1 = "" :=
  ⟨(publish_send_return_message_id "topic-arn" "queue-url" (Json.obj []) none none
      snsInitialState sqsInitialState snsIdTransport sqsIdTransport).2.1 "sns-123" rfl,
    (publish_send_return_message_id "topic-arn" "queue-url" (Json.obj []) none none
      snsInitialState sqsInitialState snsNoIdTransport sqsIdTransport).2.2.1 rfl,
    (publish_send_return_message_id "topic-arn" "queue-url" (Json.obj []) none none
      snsInitialState sqsInitialState snsIdTransport sqsIdTransport).2.2.2.2.1 "sqs-456" rfl,
    (publish_send_return_message_id "topic-arn" "queue-url" (Json.obj []) none none
      snsInitialState sqsInitialState snsIdTransport sqsNoIdTransport).2.2.2.2.2 rfl⟩
